import Mathlib

/-!
Verification development for the Sunrise Hospital EMR script
(`hospital_EMR_system.py`).

The script is a single linear pipeline over a pandas `DataFrame`:
`fetch_and_clean_data` (HTTP fetch + positional enrichment),
`filter_by_age` (boolean-mask row filter), `analyze_data` (aggregate
summary), and a menu loop `main` holding two frame slots.  We embed the
pipeline shallowly:

* a `Record` is one patient row with all enriched fields;
* a `DataFrame` is an ordered list of `Record`s plus a flag recording
  whether the "age" column is present (a bare `pd.DataFrame()` has no
  columns, which is what makes `df["age"]` raise `KeyError`);
* console prints become `Option String` / `List String` components of
  results;
* exceptions that the Python code does **not** catch are modelled with
  `Except String`: `fetch_and_clean_data` lets a pandas length-mismatch
  `ValueError` escape, and `analyze_data` lets the `KeyError` from
  `df["email"].str.split("@", expand=True)[1]` escape when no email in a
  non-empty frame contains an `'@'` (the split then produces a single
  column and column `1` does not exist).
-/

namespace EMR

/-- One raw row of the fetched JSON array: an identifier and an email.
The spec requires the source to be a JSON array of objects with at least
an `email` field. -/
structure RawRecord where
  id : Nat
  email : String
  deriving Repr, DecidableEq, Inhabited

/-- One enriched patient row: the five fields of the spec's data model. -/
structure Record where
  id : Nat
  email : String
  name : String
  age : Int
  condition : String
  deriving Repr, DecidableEq, Inhabited

/-- A pandas data frame as used by this script: an ordered row list plus a
flag for the presence of the "age" column.  `pd.DataFrame()` (the empty
frame the script uses for failure results and for the initial session
slots) has no columns at all, so its flag is `false`; every enriched frame
and every boolean-mask filter result of one keeps its columns, flag
`true`. -/
structure DataFrame where
  hasAgeColumn : Bool
  rows : List Record
  deriving Repr, DecidableEq, Inhabited

/-- `pd.DataFrame()`: no rows, no columns. -/
def DataFrame.emptyDF : DataFrame := ⟨false, []⟩

/-- `df.empty` in pandas: true when the frame has no rows. -/
def DataFrame.empty (df : DataFrame) : Bool := df.rows.isEmpty

/-- The ways `requests.get` / `raise_for_status` / `response.json()` can
fail; all of them raise subclasses of `requests.exceptions.RequestException`,
which is the class the `except` clause catches. -/
inductive FetchError where
  | network
  | httpStatus (code : Nat)
  | malformedBody
  deriving Repr, DecidableEq

/-- The text interpolated into `print(f"Error fetching data: {err}")`. -/
def fetchErrorText : FetchError → String
  | .network => "connection error"
  | .httpStatus c => "HTTP status " ++ toString c
  | .malformedBody => "invalid JSON body"

/-- The fixed 10-entry name pool written over the `name` column. -/
def custom_names : List String :=
  ["Amani Mwangi", "Neema Hassan", "Juma Odhiambo", "Zawadi Nyerere",
   "Baraka Kimani", "Fatuma Ali", "Hassan Abdallah",
   "Rehema Mussa", "Joseph Kibet", "Salma Suleiman"]

/-- The fixed simulated age column. -/
def simulated_ages : List Int := [25, 34, 45, 52, 29, 41, 38, 60, 33, 48]

/-- The fixed simulated condition column. -/
def simulated_conditions : List String :=
  ["Flu", "Hypertension", "Diabetes", "Fever",
   "Flu", "Hypertension", "Diabetes", "Hypertension",
   "Fever", "Flu"]

/-- `str.lower()` on one email, modelled character-wise (the emails in
scope are ASCII, where Python's `lower` and `Char.toLower` agree). -/
def lower (s : String) : String := String.mk (s.data.map Char.toLower)

/-- Positional enrichment of the fetched rows: overwrite `name`, `age` and
`condition` from the fixed pools and lower-case every email (the zips line
up exactly when the source has 10 rows, the only case in which the pandas
column assignments do not raise). -/
def enrich (rows : List RawRecord) : List Record :=
  (rows.zip (custom_names.zip (simulated_ages.zip simulated_conditions))).map
    (fun x => ⟨x.1.id, lower x.1.email, x.2.1, x.2.2.1, x.2.2.2⟩)

/-- `fetch_and_clean_data`, shallowly embedded.  The network interaction is
abstracted as its outcome `resp`: either a `FetchError` (any
`RequestException`: network failure, non-2xx status via
`raise_for_status`, or malformed JSON body) or the parsed list of raw
rows.  A caught failure yields `pd.DataFrame()` plus the printed message;
a successful parse is enriched, but the pandas assignment
`df["name"] = custom_names` raises an uncaught `ValueError` when the row
count differs from 10, which escapes the function (`Except.error`). -/
def fetch_and_clean_data (resp : Except FetchError (List RawRecord)) :
    Except String (DataFrame × Option String) :=
  match resp with
  | .error err =>
      .ok (DataFrame.emptyDF, some ("Error fetching data: " ++ fetchErrorText err))
  | .ok rows =>
      if rows.length = custom_names.length then
        .ok (⟨true, enrich rows⟩, none)
      else
        .error "ValueError: Length of values does not match length of index"

/-- `filter_by_age`, shallowly embedded.  With an age column present the
boolean mask `(df["age"] >= min_age) & (df["age"] <= max_age)` keeps, in
their original order, exactly the rows in the inclusive range; without one
(a bare `pd.DataFrame()`), `df["age"]` raises `KeyError`, which the
function catches, printing "Age column not found." and returning a fresh
empty frame.  The second component is the printed message. -/
def filter_by_age (df : DataFrame) (min_age max_age : Int) :
    DataFrame × Option String :=
  if df.hasAgeColumn then
    (⟨true, df.rows.filter (fun r => min_age ≤ r.age && r.age ≤ max_age)⟩, none)
  else
    (DataFrame.emptyDF, some "Age column not found.")

/-- The summary dictionary returned by `analyze_data`.  `condition_counts`
models the Python dict (key insertion order as produced by
`value_counts().to_dict()`); `mean_age` is an exact rational standing for
the rounded float.  The spec leaves the order of `condition_counts`
unspecified and Python dict equality ignores it. -/
structure Summary where
  total_patients : Nat
  unique_domains : Nat
  condition_counts : List (String × Nat)
  mean_age : Rat
  deriving Repr, DecidableEq, Inhabited

/-- `split("@")` on one string, as a split of its character list. -/
def splitAtSign : List Char → List (List Char)
  | [] => [[]]
  | c :: cs =>
      if c = '@' then [] :: splitAtSign cs
      else
        match splitAtSign cs with
        | [] => [[c]]
        | h :: t => (c :: h) :: t

/-- Column 1 of `email.str.split("@", expand=True)`: the substring between
the first `'@'` and the second one (or the end); `none` (pandas `NaN`)
when the email has no `'@'`. -/
def afterAt (email : String) : Option String :=
  match splitAtSign email.data with
  | _ :: p :: _ => some (String.mk p)
  | _ => none

/-- The distinct values among the remaining list that are not already in
`seen`, first occurrences first (the order in which pandas encounters
them). -/
def distinctAux (seen : List String) : List String → List String
  | [] => []
  | s :: rest =>
      if s ∈ seen then distinctAux seen rest
      else s :: distinctAux (s :: seen) rest

/-- The distinct values of a list, first occurrences first. -/
def distinctKeys (l : List String) : List String := distinctAux [] l

/-- `Series.nunique()`: the number of distinct non-null entries. -/
def nunique (l : List String) : Nat := (distinctKeys l).length

/-- `Series.value_counts().to_dict()`: each distinct value with its
multiplicity, sorted by count descending; the sort is stable, so ties
stay in first-occurrence order. -/
def value_counts (l : List String) : List (String × Nat) :=
  ((distinctKeys l).map (fun k => (k, l.count k))).insertionSort
    (fun a b => b.2 ≤ a.2)

/-- Python's `round` at a half-integer picks the even neighbour; elsewhere
it picks the nearest integer. -/
def roundHalfEven (q : Rat) : Int :=
  if q - ⌊q⌋ < 1/2 then ⌊q⌋
  else if q - ⌊q⌋ > 1/2 then ⌊q⌋ + 1
  else if ⌊q⌋ % 2 = 0 then ⌊q⌋ else ⌊q⌋ + 1

/-- `round(x, 2)`. -/
def round2 (q : Rat) : Rat := (roundHalfEven (q * 100) : Rat) / 100

/-- `analyze_data`, shallowly embedded.  An empty frame short-circuits to
the all-zero summary.  Otherwise the four aggregates are computed from one
snapshot of the rows.  The domain extraction
`df["email"].str.split("@", expand=True)[1]` only has a column `1` when
some email contains an `'@'`; when none does, the `KeyError` is uncaught
and escapes (`Except.error`), aborting before any aggregate is returned. -/
def analyze_data (df : DataFrame) : Except String Summary :=
  if df.empty then
    .ok ⟨0, 0, [], 0⟩
  else
    let domains := (df.rows.map (fun r => r.email)).filterMap afterAt
    if domains.isEmpty then
      .error "KeyError: 1"
    else
      .ok ⟨df.rows.length,
           nunique domains,
           value_counts (df.rows.map (fun r => r.condition)),
           round2 (((((df.rows.map (fun r => r.age)).sum : Int) : Rat)) / (df.rows.length : Rat))⟩

/-!
## Session controller (`main`)

The menu loop holds two frame slots, `patient_data` ("current") and
`filtered_data` ("filtered"), both initialised to `pd.DataFrame()`.  We
model one loop iteration as a step function on that state.  The
interactive pieces are abstracted into the command: a `load` carries the
outcome of the network interaction, a `filterCmd` carries the age range
that `get_age_range` returned (that prompt loops until
`0 ≤ min ∧ min ≤ max`, the only retry in the system).  Prints become a
`List String`; a `report` additionally yields the summary it printed and
saved.  Uncaught Python exceptions again surface as `Except.error`: a
`ValueError` escaping `fetch_and_clean_data`, the `KeyError` from printing
`filtered_data[["name", "age", "condition"]]` when the filter result lost
its columns, and the `KeyError` escaping `analyze_data`.
-/

/-- The two in-memory table slots of the session. -/
structure Session where
  current : DataFrame
  filtered : DataFrame
  deriving Repr, DecidableEq, Inhabited

/-- The session state at program start: two bare `pd.DataFrame()`. -/
def Session.init : Session := ⟨DataFrame.emptyDF, DataFrame.emptyDF⟩

/-- One parsed menu choice, with its interactive inputs resolved. -/
inductive Command where
  | load (resp : Except FetchError (List RawRecord))
  | filterCmd (min_age max_age : Int)
  | report
  | exitCmd
  | invalid
  deriving Repr

/-- What one loop iteration produced besides the new state. -/
structure StepResult where
  session : Session
  printed : List String
  reported : Option Summary
  exited : Bool
  deriving Repr, DecidableEq

/-- One iteration of the `main` menu loop. -/
def step (s : Session) : Command → Except String StepResult
  | .load resp =>
      match fetch_and_clean_data resp with
      | .error e => .error e
      | .ok (df, msg) =>
          .ok ⟨⟨df, DataFrame.emptyDF⟩,
               (msg.toList ++
                 [if !df.empty then "Patient data loaded successfully."
                  else "Failed to load patient data."]),
               none, false⟩
  | .filterCmd min_age max_age =>
      if s.current.empty then
        .ok ⟨s, ["Fetch data first."], none, false⟩
      else
        let fr := filter_by_age s.current min_age max_age
        if fr.1.hasAgeColumn then
          .ok ⟨⟨s.current, fr.1⟩, fr.2.toList, none, false⟩
        else
          .error "KeyError: name"
  | .report =>
      if s.current.empty then
        .ok ⟨s, ["Fetch data first."], none, false⟩
      else
        let df := if !s.filtered.empty then s.filtered else s.current
        match analyze_data df with
        | .error e => .error e
        | .ok a => .ok ⟨s, [], some a, false⟩
  | .exitCmd => .ok ⟨s, ["Exiting EMR System. Goodbye!"], none, true⟩
  | .invalid => .ok ⟨s, ["Invalid choice. Try again."], none, false⟩

/-!
## Concrete data for witnesses

The script's hard-coded URL is unreachable, so a successful fetch is the
hypothetical 10-row JSON array the spec describes; `raw10` is one such
payload (ids and well-formed mixed-case emails). -/

/-- A concrete successful 10-row fetch payload. -/
def raw10 : List RawRecord :=
  [⟨1, "Sincere@April.biz"⟩, ⟨2, "Shanna@Melissa.tv"⟩, ⟨3, "Nathan@Yesenia.net"⟩,
   ⟨4, "Julianne.OConner@Kory.org"⟩, ⟨5, "Lucio_Hettinger@Annie.ca"⟩,
   ⟨6, "Karley_Dach@Jasper.info"⟩, ⟨7, "Telly.Hoeger@Billy.biz"⟩,
   ⟨8, "Sherwood@Rosamond.me"⟩, ⟨9, "Chaim_McDermott@Dana.io"⟩,
   ⟨10, "Rey.Padberg@Karina.biz"⟩]

/-- The enriched frame a successful fetch of `raw10` yields. -/
def df10 : DataFrame := ⟨true, enrich raw10⟩

/-- The summary `analyze_data` computes on `df10`. -/
def summary10 : Summary :=
  ⟨10, 10, [("Flu", 3), ("Hypertension", 3), ("Diabetes", 2), ("Fever", 2)], 81 / 2⟩

/-- A frame whose single row has an email with no `'@'` in it. -/
def noAtDF : DataFrame := ⟨true, [⟨0, "foo", "X", 30, "Flu"⟩]⟩

/-!
## Helper lemmas
-/

/-- Projecting the age column out of the positional enrichment recovers the
age pool, as long as all four lists have the same length; likewise for the
condition column and for the lower-cased emails. -/
theorem enrichZip_columns :
    ∀ (rows : List RawRecord) (ns : List String) (ags : List Int) (cs : List String),
      rows.length = ns.length → ns.length = ags.length → ags.length = cs.length →
      ((rows.zip (ns.zip (ags.zip cs))).map
          (fun x => (⟨x.1.id, lower x.1.email, x.2.1, x.2.2.1, x.2.2.2⟩ : Record))).map
            (fun r => r.age) = ags ∧
      ((rows.zip (ns.zip (ags.zip cs))).map
          (fun x => (⟨x.1.id, lower x.1.email, x.2.1, x.2.2.1, x.2.2.2⟩ : Record))).map
            (fun r => r.condition) = cs ∧
      ((rows.zip (ns.zip (ags.zip cs))).map
          (fun x => (⟨x.1.id, lower x.1.email, x.2.1, x.2.2.1, x.2.2.2⟩ : Record))).map
            (fun r => r.email) = rows.map (fun r => lower r.email) := by
  intro rows
  induction rows with
  | nil =>
      intro ns ags cs h1 h2 h3
      simp only [List.length_nil] at h1
      have hags : ags = [] := List.length_eq_zero.mp (by omega)
      have hcs : cs = [] := List.length_eq_zero.mp (by omega)
      subst hags; subst hcs
      simp
  | cons r rt ih =>
      intro ns ags cs h1 h2 h3
      cases ns with
      | nil => simp at h1
      | cons n nt =>
        cases ags with
        | nil => simp at h2
        | cons a at' =>
          cases cs with
          | nil => simp at h3
          | cons c ct =>
            obtain ⟨ia, ic, ie⟩ :=
              ih nt at' ct (by simpa using h1) (by simpa using h2) (by simpa using h3)
            simp [ia, ic, ie]

/-- The ages of an enriched 10-row fetch are the fixed age pool. -/
theorem enrich_ages {rows : List RawRecord} (h : rows.length = 10) :
    (enrich rows).map (fun r => r.age) = simulated_ages :=
  (enrichZip_columns rows custom_names simulated_ages simulated_conditions
    (by simp [custom_names, h]) (by simp [custom_names, simulated_ages])
    (by simp [simulated_ages, simulated_conditions])).1

/-- The conditions of an enriched 10-row fetch are the fixed condition pool. -/
theorem enrich_conditions {rows : List RawRecord} (h : rows.length = 10) :
    (enrich rows).map (fun r => r.condition) = simulated_conditions :=
  (enrichZip_columns rows custom_names simulated_ages simulated_conditions
    (by simp [custom_names, h]) (by simp [custom_names, simulated_ages])
    (by simp [simulated_ages, simulated_conditions])).2.1

/-- The emails of an enriched 10-row fetch are the lower-cased source
emails. -/
theorem enrich_emails {rows : List RawRecord} (h : rows.length = 10) :
    (enrich rows).map (fun r => r.email) = rows.map (fun r => lower r.email) :=
  (enrichZip_columns rows custom_names simulated_ages simulated_conditions
    (by simp [custom_names, h]) (by simp [custom_names, simulated_ages])
    (by simp [simulated_ages, simulated_conditions])).2.2

/-- An enriched 10-row fetch has 10 rows. -/
theorem enrich_length {rows : List RawRecord} (h : rows.length = 10) :
    (enrich rows).length = 10 := by
  have := congrArg List.length (enrich_ages h)
  simpa [simulated_ages] using this

/-- A key produced by `distinctAux seen l` is never one of the already-seen
keys. -/
theorem distinctAux_not_seen :
    ∀ (l seen : List String) (k : String), k ∈ distinctAux seen l → k ∉ seen := by
  intro l
  induction l with
  | nil => intro seen k hk; simp [distinctAux] at hk
  | cons s rest ih =>
      intro seen k hk
      by_cases hs : s ∈ seen
      · exact ih seen k (by simpa [distinctAux, hs] using hk)
      · rw [distinctAux, if_neg hs] at hk
        rcases List.mem_cons.mp hk with h | h
        · subst h; exact hs
        · exact fun hks => (ih (s :: seen) k h) (List.mem_cons_of_mem s hks)

/-- Membership in `distinctAux seen l`: the elements of `l` that are not in
`seen`. -/
theorem mem_distinctAux :
    ∀ (l seen : List String) (k : String),
      k ∈ distinctAux seen l ↔ k ∈ l ∧ k ∉ seen := by
  intro l
  induction l with
  | nil => intro seen k; simp [distinctAux]
  | cons s rest ih =>
      intro seen k
      by_cases hs : s ∈ seen
      · rw [distinctAux, if_pos hs, ih seen k]
        constructor
        · exact fun ⟨hk, hns⟩ => ⟨List.mem_cons_of_mem s hk, hns⟩
        · rintro ⟨hk, hns⟩
          rcases List.mem_cons.mp hk with h | h
          · exact absurd (h ▸ hs) hns
          · exact ⟨h, hns⟩
      · rw [distinctAux, if_neg hs, List.mem_cons, ih (s :: seen) k]
        constructor
        · rintro (h | ⟨hk, hns⟩)
          · exact ⟨h ▸ List.mem_cons_self s rest, h ▸ hs⟩
          · exact ⟨List.mem_cons_of_mem s hk, fun hsk => hns (List.mem_cons_of_mem s hsk)⟩
        · rintro ⟨hk, hns⟩
          by_cases hks : k = s
          · exact Or.inl hks
          · rcases List.mem_cons.mp hk with h | h
            · exact absurd h hks
            · exact Or.inr ⟨h, by simp [List.mem_cons, hks, hns]⟩

/-- `distinctAux` never repeats a key. -/
theorem distinctAux_nodup :
    ∀ (l seen : List String), (distinctAux seen l).Nodup := by
  intro l
  induction l with
  | nil => intro seen; simp [distinctAux]
  | cons s rest ih =>
      intro seen
      by_cases hs : s ∈ seen
      · rw [distinctAux, if_pos hs]; exact ih seen
      · rw [distinctAux, if_neg hs]
        refine List.Nodup.cons ?_ (ih (s :: seen))
        intro hmem
        exact (distinctAux_not_seen rest (s :: seen) s hmem) (List.mem_cons_self s seen)

/-- `distinctKeys` is a permutation of Mathlib's `dedup`. -/
theorem distinctKeys_perm_dedup (l : List String) :
    (distinctKeys l).Perm l.dedup := by
  unfold distinctKeys
  rw [List.perm_ext_iff_of_nodup (distinctAux_nodup l []) (List.nodup_dedup l)]
  intro a
  rw [List.mem_dedup, mem_distinctAux l [] a]
  simp

/-- The multiplicities recorded by `value_counts` add up to the length of
the underlying column. -/
theorem sum_value_counts (l : List String) :
    ((value_counts l).map Prod.snd).sum = l.length := by
  have hperm :
      ((value_counts l).map Prod.snd).sum =
        (((distinctKeys l).map (fun k => (k, l.count k))).map Prod.snd).sum :=
    ((List.perm_insertionSort _ _).map Prod.snd).sum_eq
  rw [hperm, List.map_map]
  have hmap : ((distinctKeys l).map (Prod.snd ∘ fun k => (k, l.count k))) =
      (distinctKeys l).map (fun k => l.count k) := by
    simp [Function.comp]
  rw [hmap]
  have hp : ((distinctKeys l).map (fun k => l.count k)).Perm
      (l.dedup.map (fun k => l.count k)) :=
    (distinctKeys_perm_dedup l).map _
  rw [hp.sum_eq]
  simpa using List.sum_map_count_dedup_eq_length l

/-- Unfolding `analyze_data` on a frame with at least one row and at least
one `'@'`-carrying email. -/
theorem analyze_data_nonempty (df : DataFrame) (h : df.rows ≠ [])
    (hd : (df.rows.map (fun r => r.email)).filterMap afterAt ≠ []) :
    analyze_data df =
      .ok ⟨df.rows.length,
           nunique ((df.rows.map (fun r => r.email)).filterMap afterAt),
           value_counts (df.rows.map (fun r => r.condition)),
           round2 (((((df.rows.map (fun r => r.age)).sum : Int) : Rat)) /
             (df.rows.length : Rat))⟩ := by
  simp only [analyze_data, DataFrame.empty]
  rw [if_neg (by simpa [List.isEmpty_iff] using h)]
  simp only [List.isEmpty_iff]
  rw [if_neg hd]

/-- Unfolding `analyze_data` on a non-empty frame none of whose emails
contains an `'@'`: the pandas `KeyError` escapes. -/
theorem analyze_data_keyerror (df : DataFrame) (h : df.rows ≠ [])
    (hd : (df.rows.map (fun r => r.email)).filterMap afterAt = []) :
    analyze_data df = .error "KeyError: 1" := by
  simp only [analyze_data, DataFrame.empty]
  rw [if_neg (by simpa [List.isEmpty_iff] using h)]
  simp only [List.isEmpty_iff]
  rw [if_pos hd]

/-- `analyze_data` on any row-less frame yields the all-zero summary. -/
theorem analyze_data_empty (df : DataFrame) (h : df.rows = []) :
    analyze_data df = .ok ⟨0, 0, [], 0⟩ := by
  simp [analyze_data, DataFrame.empty, h]

/-- Evaluating the whole pipeline on the concrete payload `raw10`. -/
theorem analyze_raw10 : analyze_data df10 = .ok summary10 := by
  rw [analyze_data_nonempty df10 (by decide) (by decide)]
  have hn : df10.rows.length = 10 := by decide
  have hu : nunique ((df10.rows.map (fun r => r.email)).filterMap afterAt) = 10 := by
    decide
  have hc : value_counts (df10.rows.map (fun r => r.condition)) =
      [("Flu", 3), ("Hypertension", 3), ("Diabetes", 2), ("Fever", 2)] := by decide
  have hsum : (df10.rows.map (fun r => r.age)).sum = 405 := by decide
  rw [hn, hu, hc, hsum]
  norm_num [summary10, round2, roundHalfEven]

/-- Eliminating a successful `fetch_and_clean_data` on a 10-row payload:
the result is the enriched frame and no message. -/
theorem fetch_ok_elim {raw : List RawRecord} {df : DataFrame} {m : Option String}
    (h10 : raw.length = 10)
    (hf : fetch_and_clean_data (Except.ok raw) = Except.ok (df, m)) :
    df = ⟨true, enrich raw⟩ ∧ m = none := by
  have hlen : raw.length = custom_names.length := by rw [h10]; rfl
  simp only [fetch_and_clean_data] at hf
  rw [if_pos hlen] at hf
  have hpair := Except.ok.inj hf
  exact ⟨(Prod.ext_iff.mp hpair).1.symm, (Prod.ext_iff.mp hpair).2.symm⟩

/-- `distinctAux` on a constant list whose value was already seen. -/
theorem distinctAux_replicate (n : Nat) (d : String) (seen : List String)
    (h : d ∈ seen) : distinctAux seen (List.replicate n d) = [] := by
  induction n with
  | zero => simp [distinctAux]
  | succ k ih => rw [List.replicate_succ, distinctAux, if_pos h]; exact ih

/-- A non-empty constant column has exactly one distinct value. -/
theorem nunique_replicate (n : Nat) (d : String) :
    nunique (List.replicate (n + 1) d) = 1 := by
  rw [nunique, distinctKeys, List.replicate_succ, distinctAux, if_neg (by simp),
    distinctAux_replicate n d [d] (by simp)]
  rfl

/-- When every row's email has the same domain, the extracted domain column
is that constant. -/
theorem filterMap_const_some :
    ∀ (l : List Record) (d : String), (∀ r ∈ l, afterAt r.email = some d) →
      (l.map (fun r => r.email)).filterMap afterAt = List.replicate l.length d := by
  intro l
  induction l with
  | nil => simp
  | cons r rt ih =>
      intro d h
      simp only [List.map_cons, List.filterMap_cons, h r (List.mem_cons_self r rt)]
      rw [ih d (fun x hx => h x (List.mem_cons_of_mem r hx))]
      simp [List.replicate_succ]

/-!
## The claims
-/

/-- C1: for every input URL whose fetch fails (network failure, non-2xx
status, or malformed body — every `RequestException`), `fetch_and_clean_data`
returns (`Except.ok`, so no exception escapes the Fetcher boundary) the
empty Table together with the user-facing failure message. -/
theorem C1_fetch_failure_absorbed (err : FetchError) :
    fetch_and_clean_data (Except.error err) =
      Except.ok (DataFrame.emptyDF,
        some ("Error fetching data: " ++ fetchErrorText err)) := rfl

/-- C2 counterexample: filtering the enriched synthetic table with the
range [30, 45] does not yield the four rows at positions 1, 2, 5, 6
claimed (ages 34, 45, 41, 38): the result has five rows, because age 33 at
position 8 also lies in [30, 45]. -/
theorem C2_counterexample :
    (filter_by_age df10 30 45).1.rows.map (fun r => r.age) ≠ [34, 45, 41, 38] ∧
    (filter_by_age df10 30 45).1.rows.map (fun r => r.age) = [34, 45, 41, 38, 33] := by
  constructor
  · decide
  · decide

/-- C2 (amended): for every Table with an age column and every integer
range, `filter_by_age` returns a sub-sequence of the rows (original order
preserved) whose ages all satisfy `min ≤ age ≤ max`, keeping every
occurrence of every in-range row; filtering the fixed synthetic age list
[25,34,45,52,29,41,38,60,33,48] with range [30,45] yields exactly the rows
at positions 1, 2, 5, 6 and 8 (ages 34, 45, 41, 38, 33). -/
theorem C2_filter_by_age_range :
    (∀ (df : DataFrame) (mn mx : Int), df.hasAgeColumn = true →
        (filter_by_age df mn mx).1.rows.Sublist df.rows ∧
        (∀ r ∈ (filter_by_age df mn mx).1.rows, mn ≤ r.age ∧ r.age ≤ mx) ∧
        (∀ r : Record, mn ≤ r.age → r.age ≤ mx →
          (filter_by_age df mn mx).1.rows.count r = df.rows.count r)) ∧
    (filter_by_age df10 30 45).1.rows =
      [df10.rows[1]!, df10.rows[2]!, df10.rows[5]!, df10.rows[6]!, df10.rows[8]!] ∧
    (filter_by_age df10 30 45).1.rows.map (fun r => r.age) = [34, 45, 41, 38, 33] := by
  refine ⟨?_, by decide, by decide⟩
  intro df mn mx h
  simp only [filter_by_age, h, if_true]
  refine ⟨List.filter_sublist df.rows, ?_, ?_⟩
  · intro r hr
    have hb := (List.mem_filter.mp hr).2
    simpa using hb
  · intro r h1 h2
    exact List.count_filter (by simp [h1, h2])

/-- C2 witness: the general part applied to the concrete enriched frame. -/
theorem C2_filter_by_age_range_witness :
    (filter_by_age df10 30 45).1.rows.Sublist df10.rows ∧
    (∀ r ∈ (filter_by_age df10 30 45).1.rows, (30 : Int) ≤ r.age ∧ r.age ≤ 45) := by
  have h := C2_filter_by_age_range.1 df10 30 45 rfl
  exact ⟨h.1, h.2.1⟩

/-- C3 counterexample: on the non-empty Table whose single row's email
"foo" contains no `'@'`, `analyze_data` does not return any Summary at all
— the pandas `KeyError` from `str.split("@", expand=True)[1]` escapes — so
it does not return `total_patients` equal to the row count there. -/
theorem C3_counterexample :
    analyze_data noAtDF = Except.error "KeyError: 1" ∧
      ¬ ∃ s : Summary, analyze_data noAtDF = Except.ok s := by
  refine ⟨rfl, ?_⟩
  rintro ⟨s, hs⟩
  rw [show analyze_data noAtDF = Except.error "KeyError: 1" from rfl] at hs
  cases hs

/-- C3 (amended): for every Table that is empty or has at least one row
whose email contains an `'@'`, `analyze_data` returns a Summary whose
`total_patients` is the Table's row count; on every empty Table the result
is the all-zero/empty Summary, and hence the Summary computed from the
Table a failed fetch returns is that all-zero Summary. -/
theorem C3_total_patients :
    (∀ df : DataFrame,
        df.rows = [] ∨ (∃ r ∈ df.rows, afterAt r.email ≠ none) →
        ∃ s, analyze_data df = Except.ok s ∧ s.total_patients = df.rows.length) ∧
    (∀ df : DataFrame, df.rows = [] →
        analyze_data df = Except.ok ⟨0, 0, [], 0⟩) ∧
    (∀ (err : FetchError) (df : DataFrame) (m : Option String),
        fetch_and_clean_data (Except.error err) = Except.ok (df, m) →
        analyze_data df = Except.ok ⟨0, 0, [], 0⟩) := by
  refine ⟨?_, fun df h => analyze_data_empty df h, ?_⟩
  · intro df h
    rcases h with h | ⟨r, hr, hat⟩
    · exact ⟨⟨0, 0, [], 0⟩, analyze_data_empty df h, by simp [h]⟩
    · obtain ⟨d, hd⟩ := Option.ne_none_iff_exists'.mp hat
      have hmem : d ∈ (df.rows.map (fun r => r.email)).filterMap afterAt :=
        List.mem_filterMap.mpr ⟨r.email, List.mem_map_of_mem _ hr, hd⟩
      exact ⟨_, analyze_data_nonempty df (List.ne_nil_of_mem hr)
        (List.ne_nil_of_mem hmem), rfl⟩
  · intro err df m hf
    simp only [fetch_and_clean_data] at hf
    have hdf : df = DataFrame.emptyDF :=
      ((Prod.ext_iff.mp (Except.ok.inj hf)).1).symm
    exact analyze_data_empty df (by rw [hdf]; rfl)

/-- C3 witness: the empty frame and the concrete 10-row frame. -/
theorem C3_total_patients_witness :
    analyze_data DataFrame.emptyDF = Except.ok ⟨0, 0, [], 0⟩ ∧
    summary10.total_patients = df10.rows.length := by
  refine ⟨C3_total_patients.2.1 DataFrame.emptyDF rfl, ?_⟩
  obtain ⟨s, hs, ht⟩ := C3_total_patients.1 df10 (Or.inr (by decide))
  have hss : s = summary10 := Except.ok.inj (hs.symm.trans analyze_raw10)
  rw [← hss]
  exact ht

/-- C4: on the synthetic dataset of any successful 10-row fetch (with at
least one well-formed email, which is what keeps the Summarizer from
raising), `analyze_data` returns `mean_age = 40.5` and the condition
frequency map Flu 3, Hypertension 3, Diabetes 2, Fever 2. -/
theorem C4_mean_age_and_condition_counts (raw : List RawRecord)
    (df : DataFrame) (m : Option String)
    (h10 : raw.length = 10)
    (hat : ∃ r ∈ raw, afterAt (lower r.email) ≠ none)
    (hf : fetch_and_clean_data (Except.ok raw) = Except.ok (df, m)) :
    ∃ s, analyze_data df = Except.ok s ∧
      s.mean_age = 81 / 2 ∧
      s.condition_counts =
        [("Flu", 3), ("Hypertension", 3), ("Diabetes", 2), ("Fever", 2)] := by
  obtain ⟨hdf, -⟩ := fetch_ok_elim h10 hf
  subst hdf
  obtain ⟨r, hr, hat'⟩ := hat
  obtain ⟨d, hd⟩ := Option.ne_none_iff_exists'.mp hat'
  have hne : enrich raw ≠ [] := by
    intro hnil
    have h1 := enrich_length h10
    rw [hnil] at h1
    simp at h1
  have hmem : d ∈ ((enrich raw).map (fun r => r.email)).filterMap afterAt := by
    rw [enrich_emails h10]
    exact List.mem_filterMap.mpr ⟨lower r.email, List.mem_map_of_mem _ hr, hd⟩
  refine ⟨_, analyze_data_nonempty ⟨true, enrich raw⟩ hne
    (List.ne_nil_of_mem hmem), ?_, ?_⟩
  · have hsum : ((enrich raw).map (fun r => r.age)).sum = 405 := by
      rw [enrich_ages h10]; decide
    have hlen : (enrich raw).length = 10 := enrich_length h10
    show round2 _ = 81 / 2
    dsimp only
    rw [hsum, hlen]
    norm_num [round2, roundHalfEven]
  · show value_counts _ = _
    dsimp only
    rw [enrich_conditions h10]
    decide

/-- C4 witness: the concrete payload `raw10`. -/
theorem C4_mean_age_and_condition_counts_witness :
    raw10.length = 10 ∧
    summary10.mean_age = 81 / 2 ∧
    summary10.condition_counts =
      [("Flu", 3), ("Hypertension", 3), ("Diabetes", 2), ("Fever", 2)] := by
  obtain ⟨s, hs, hm, hc⟩ :=
    C4_mean_age_and_condition_counts raw10 df10 none (by decide) (by decide) rfl
  have hss : s = summary10 := Except.ok.inj (hs.symm.trans analyze_raw10)
  exact ⟨by decide, hss ▸ hm, hss ▸ hc⟩

/-- A frame in which every row's email has the shared domain
"example.com". -/
def exampleComDF : DataFrame :=
  ⟨true, [⟨0, "a@example.com", "A", 30, "Flu"⟩,
          ⟨1, "b@example.com", "B", 40, "Flu"⟩]⟩

/-- C5: `unique_domains` is the number of distinct substrings after the
`'@'` of each email, rows without an `'@'` (pandas `NaN` after the
expanding split) contributing nothing; a domain shared by every row is
counted once, however many rows share it; and because the Fetcher
lower-cases emails at ingestion, the count only depends on the
case-normalised source emails. -/
theorem C5_unique_domains :
    (∀ (df : DataFrame) (s : Summary), analyze_data df = Except.ok s →
        s.unique_domains =
          nunique ((df.rows.map (fun r => r.email)).filterMap afterAt)) ∧
    (∀ (df : DataFrame) (s : Summary) (d : String),
        analyze_data df = Except.ok s → df.rows ≠ [] →
        (∀ r ∈ df.rows, afterAt r.email = some d) →
        s.unique_domains = 1) ∧
    (∀ (raw raw' : List RawRecord) (df df' : DataFrame) (m m' : Option String)
        (s s' : Summary),
        raw.length = 10 → raw'.length = 10 →
        raw.map (fun r => lower r.email) = raw'.map (fun r => lower r.email) →
        fetch_and_clean_data (Except.ok raw) = Except.ok (df, m) →
        fetch_and_clean_data (Except.ok raw') = Except.ok (df', m') →
        analyze_data df = Except.ok s → analyze_data df' = Except.ok s' →
        s.unique_domains = s'.unique_domains) := by
  have part1 : ∀ (df : DataFrame) (s : Summary), analyze_data df = Except.ok s →
      s.unique_domains =
        nunique ((df.rows.map (fun r => r.email)).filterMap afterAt) := by
    intro df s hs
    by_cases hrows : df.rows = []
    · rw [analyze_data_empty df hrows] at hs
      obtain rfl := Except.ok.inj hs
      rw [hrows]
      rfl
    · by_cases hdom : (df.rows.map (fun r => r.email)).filterMap afterAt = []
      · rw [analyze_data_keyerror df hrows hdom] at hs
        cases hs
      · rw [analyze_data_nonempty df hrows hdom] at hs
        obtain rfl := Except.ok.inj hs
        rfl
  refine ⟨part1, ?_, ?_⟩
  · intro df s d hs hne hall
    rw [part1 df s hs, filterMap_const_some df.rows d hall]
    cases hlen : df.rows.length with
    | zero => exact absurd (List.length_eq_zero.mp hlen) hne
    | succ n => exact nunique_replicate n d
  · intro raw raw' df df' m m' s s' h10 h10' heq hf hf' hs hs'
    obtain ⟨hdf, -⟩ := fetch_ok_elim h10 hf
    obtain ⟨hdf', -⟩ := fetch_ok_elim h10' hf'
    subst hdf; subst hdf'
    rw [part1 _ _ hs, part1 _ _ hs']
    show nunique (((enrich raw).map (fun r => r.email)).filterMap afterAt) =
      nunique (((enrich raw').map (fun r => r.email)).filterMap afterAt)
    rw [enrich_emails h10, enrich_emails h10', heq]

/-- C5 witness: the concrete pipeline frame (10 distinct domains) and a
frame whose two rows share the domain "example.com" (counted once). -/
theorem C5_unique_domains_witness :
    summary10.unique_domains = 10 ∧
    nunique ((exampleComDF.rows.map (fun r => r.email)).filterMap afterAt) = 1 := by
  constructor
  · rw [C5_unique_domains.1 df10 summary10 analyze_raw10]
    decide
  · obtain ⟨s, hs⟩ : ∃ s, analyze_data exampleComDF = Except.ok s :=
      ⟨_, analyze_data_nonempty exampleComDF (by decide) (by decide)⟩
    have h1 := C5_unique_domains.1 exampleComDF s hs
    have h2 := C5_unique_domains.2.1 exampleComDF s "example.com" hs
      (by decide) (by decide)
    rw [← h1, h2]

/-- C6: filtering is idempotent under a fixed range: re-filtering an
already-filtered Table with the same `[min, max]` changes nothing. -/
theorem C6_filter_idempotent (df : DataFrame) (mn mx : Int)
    (h : df.hasAgeColumn = true) :
    filter_by_age (filter_by_age df mn mx).1 mn mx = filter_by_age df mn mx := by
  simp [filter_by_age, h, List.filter_filter]

/-- C6 witness: the concrete enriched frame with range [30, 45]. -/
theorem C6_filter_idempotent_witness :
    filter_by_age (filter_by_age df10 30 45).1 30 45 = filter_by_age df10 30 45 :=
  C6_filter_idempotent df10 30 45 rfl

/-- C7: a direct call with an inverted range `lo > hi` returns the empty
Table — no row satisfies the degenerate predicate `lo ≤ age ≤ hi`. -/
theorem C7_inverted_range_empty (df : DataFrame) (lo hi : Int)
    (h : df.hasAgeColumn = true) (hlt : hi < lo) :
    (filter_by_age df lo hi).1.rows = [] := by
  have heq : filter_by_age df lo hi =
      (⟨true, df.rows.filter (fun r => lo ≤ r.age && r.age ≤ hi)⟩, none) := by
    simp [filter_by_age, h]
  rw [heq]
  show df.rows.filter (fun r => lo ≤ r.age && r.age ≤ hi) = []
  rw [List.filter_eq_nil_iff]
  intro r hr
  simp only [Bool.and_eq_true, decide_eq_true_eq, not_and]
  omega

/-- C7 witness: the concrete enriched frame with the inverted range
[45, 30]. -/
theorem C7_inverted_range_empty_witness :
    (30 : Int) < 45 ∧ (filter_by_age df10 45 30).1.rows = [] :=
  ⟨by norm_num, C7_inverted_range_empty df10 45 30 rfl (by norm_num)⟩

/-- C8: on a frame without an age column (such as the empty, un-enriched
`pd.DataFrame()`), `filter_by_age` returns the empty Table together with
the "Age column not found." message, while with the column present it
never emits that message — so the missing-column failure is signalled
distinctly from an empty match result. -/
theorem C8_missing_age_column :
    (∀ (df : DataFrame) (mn mx : Int), df.hasAgeColumn = false →
        filter_by_age df mn mx =
          (DataFrame.emptyDF, some "Age column not found.")) ∧
    (∀ (df : DataFrame) (mn mx : Int), df.hasAgeColumn = true →
        (filter_by_age df mn mx).2 = none) := by
  constructor
  · intro df mn mx h
    simp [filter_by_age, h]
  · intro df mn mx h
    simp [filter_by_age, h]

/-- C8 witness: the un-enriched empty frame versus a no-rows-matched
filter on the enriched frame. -/
theorem C8_missing_age_column_witness :
    filter_by_age DataFrame.emptyDF 0 1 =
      (DataFrame.emptyDF, some "Age column not found.") ∧
    (filter_by_age df10 100 200).2 = none ∧
    (filter_by_age df10 100 200).1.rows = [] := by
  refine ⟨C8_missing_age_column.1 DataFrame.emptyDF 0 1 rfl,
    C8_missing_age_column.2 df10 100 200 rfl, by decide⟩

/-- C9: in the menu loop's state machine over the slots (current,
filtered): every load replaces `current` with the fetch result and resets
`filtered` to the empty frame; filter and report refuse to run on an empty
`current`, printing a guidance message and leaving both slots unchanged; a
filter on a non-empty `current` replaces only `filtered`; and report
summarises `filtered` when it is non-empty and `current` otherwise,
leaving both slots unchanged. -/
theorem C9_session_state_machine :
    (∀ (s : Session) (resp : Except FetchError (List RawRecord))
        (df : DataFrame) (m : Option String),
        fetch_and_clean_data resp = Except.ok (df, m) →
        step s (.load resp) =
          Except.ok ⟨⟨df, DataFrame.emptyDF⟩,
            m.toList ++ [if !df.empty then "Patient data loaded successfully."
              else "Failed to load patient data."], none, false⟩) ∧
    (∀ (s : Session) (lo hi : Int), s.current.empty = true →
        step s (.filterCmd lo hi) =
          Except.ok ⟨s, ["Fetch data first."], none, false⟩) ∧
    (∀ s : Session, s.current.empty = true →
        step s .report = Except.ok ⟨s, ["Fetch data first."], none, false⟩) ∧
    (∀ (s : Session) (lo hi : Int), s.current.empty = false →
        s.current.hasAgeColumn = true →
        step s (.filterCmd lo hi) =
          Except.ok ⟨⟨s.current, (filter_by_age s.current lo hi).1⟩,
            [], none, false⟩) ∧
    (∀ (s : Session) (a : Summary), s.current.empty = false →
        s.filtered.empty = false → analyze_data s.filtered = Except.ok a →
        step s .report = Except.ok ⟨s, [], some a, false⟩) ∧
    (∀ (s : Session) (a : Summary), s.current.empty = false →
        s.filtered.empty = true → analyze_data s.current = Except.ok a →
        step s .report = Except.ok ⟨s, [], some a, false⟩) := by
  refine ⟨?_, ?_, ?_, ?_, ?_, ?_⟩
  · intro s resp df m hf
    simp only [step]
    rw [hf]
  · intro s lo hi h
    simp [step, h]
  · intro s h
    simp [step, h]
  · intro s lo hi h1 h2
    simp [step, h1, filter_by_age, h2]
  · intro s a h1 h2 ha
    simp only [step]
    rw [if_neg (by simp [h1]), if_pos (by simp [h2]), ha]
  · intro s a h1 h2 ha
    simp only [step]
    rw [if_neg (by simp [h1]), if_neg (by simp [h2]), ha]

/-- C9 witness: the guards on the initial state, a failed load, and a
report on a loaded current frame. -/
theorem C9_session_state_machine_witness :
    step Session.init (.filterCmd 30 45) =
      Except.ok ⟨Session.init, ["Fetch data first."], none, false⟩ ∧
    step Session.init .report =
      Except.ok ⟨Session.init, ["Fetch data first."], none, false⟩ ∧
    step ⟨df10, DataFrame.emptyDF⟩ (.load (Except.error .network)) =
      Except.ok ⟨⟨DataFrame.emptyDF, DataFrame.emptyDF⟩,
        ["Error fetching data: connection error",
         "Failed to load patient data."], none, false⟩ ∧
    step ⟨df10, DataFrame.emptyDF⟩ .report =
      Except.ok ⟨⟨df10, DataFrame.emptyDF⟩, [], some summary10, false⟩ := by
  refine ⟨C9_session_state_machine.2.1 Session.init 30 45 rfl,
    C9_session_state_machine.2.2.1 Session.init rfl, ?_, ?_⟩
  · exact C9_session_state_machine.1 ⟨df10, DataFrame.emptyDF⟩
      (Except.error .network) DataFrame.emptyDF
      (some "Error fetching data: connection error") rfl
  · exact C9_session_state_machine.2.2.2.2.2 ⟨df10, DataFrame.emptyDF⟩
      summary10 (by decide) rfl analyze_raw10

/-- C10 (implicit invariant): whenever `analyze_data` produces a Summary,
the counts in `condition_counts` add up to `total_patients` — every row
lands in exactly one condition bucket. -/
theorem C10_counts_sum_to_total (df : DataFrame) (s : Summary)
    (hs : analyze_data df = Except.ok s) :
    (s.condition_counts.map Prod.snd).sum = s.total_patients := by
  by_cases hrows : df.rows = []
  · rw [analyze_data_empty df hrows] at hs
    obtain rfl := Except.ok.inj hs
    rfl
  · by_cases hdom : (df.rows.map (fun r => r.email)).filterMap afterAt = []
    · rw [analyze_data_keyerror df hrows hdom] at hs
      cases hs
    · rw [analyze_data_nonempty df hrows hdom] at hs
      obtain rfl := Except.ok.inj hs
      show ((value_counts (df.rows.map (fun r => r.condition))).map Prod.snd).sum
        = df.rows.length
      rw [sum_value_counts]
      simp

/-- C10 witness: the concrete pipeline Summary (3+3+2+2 = 10). -/
theorem C10_counts_sum_to_total_witness :
    (summary10.condition_counts.map Prod.snd).sum = summary10.total_patients :=
  C10_counts_sum_to_total df10 summary10 analyze_raw10

end EMR
